import Mathlib

/-!
Verification of the fftokens connector (internal/tokens/fftokens/fftokens.go).

The Go code is shallowly embedded: JSON payloads become a `JSONValue` tree,
the loosely-typed accessors `GetString`/`GetObject`/`GetBool` of
`fftypes.JSONObject` become total functions with the same
missing-or-wrong-type defaults, the event handlers become pure functions
returning `Option` records (`none` models the "skip, move on" outcome), and
the websocket event loop becomes a fold over a list of inbound frames that
produces the trace of callback invocations and acknowledgement sends.
-/

namespace FFTokens

/-- A JSON document: the payloads of inbound frames are JSON objects. -/
inductive JSONValue where
  | str (s : String)
  | boolean (b : Bool)
  | num (n : Int)
  | obj (fields : List (String × JSONValue))
  | arr (elems : List JSONValue)
  | null

/-- A JSON object, as delivered in the `data` field of a frame
(`fftypes.JSONObject`). -/
abbrev JSONObject := List (String × JSONValue)

/-- Field lookup in a JSON object. -/
def jsonLookup (o : JSONObject) (k : String) : Option JSONValue :=
  match o with
  | [] => none
  | (k', v) :: rest => if k' = k then some v else jsonLookup rest k

/-- Modelled from the spec: `fftypes.JSONObject.GetString` (the fftypes
package is not under src/) — returns the string value of the field, or the
empty string when the field is missing or not a string. -/
def getString (o : JSONObject) (k : String) : String :=
  match jsonLookup o k with
  | some (.str s) => s
  | _ => ""

/-- Modelled from the spec: `fftypes.JSONObject.GetBool` — the boolean value
of the field, or `false` when the field is missing or not a JSON boolean. -/
def getBool (o : JSONObject) (k : String) : Bool :=
  match jsonLookup o k with
  | some (.boolean b) => b
  | _ => false

/-- Modelled from the spec: `fftypes.JSONObject.GetObject` — the object value
of the field, or the empty object when the field is missing or not an
object. -/
def getObject (o : JSONObject) (k : String) : JSONObject :=
  match jsonLookup o k with
  | some (.obj f) => f
  | _ => []

/-! ### Characters, UUIDs, hex and big-integer parsing -/

/-- A character that JSON renders inside a string literal without any
escaping: printable, not a double quote, not a backslash. -/
def plainChar (c : Char) : Bool :=
  decide (32 ≤ c.toNat) && decide (c.toNat ≠ 34) && decide (c.toNat ≠ 92)

/-- Hexadecimal digit (either case). -/
def isHexChar (c : Char) : Bool :=
  (decide (48 ≤ c.toNat) && decide (c.toNat ≤ 57)) ||
  (decide (97 ≤ c.toNat) && decide (c.toNat ≤ 102)) ||
  (decide (65 ≤ c.toNat) && decide (c.toNat ≤ 70))

/-- Position `i` of a canonical 8-4-4-4-12 UUID string holds a hyphen at the
group breaks and a hex digit elsewhere. -/
def uuidSlotOk (i : Nat) (c : Char) : Bool :=
  if i = 8 ∨ i = 13 ∨ i = 18 ∨ i = 23 then c = '-' else isHexChar c

/-- Canonical textual UUID: 36 characters, hyphens at positions 8, 13, 18
and 23, hex digits elsewhere. -/
def isUUIDString (s : String) : Bool :=
  s.toList.length = 36 &&
    (List.range 36).all fun i => uuidSlotOk i (s.toList.getD i ' ')

/-- Modelled from the spec: `fftypes.ParseUUID` (the node's
operation-identifier format; fftypes is not under src/) — accepts exactly the
canonical UUID form and returns the identifier, else fails. -/
def parseUUID (s : String) : Option String :=
  if isUUIDString s then some s else none

/-- 32 bytes rendered as 64 hex characters (`fftypes.Bytes32` wire form). -/
def isBytes32Hex (s : String) : Bool :=
  s.toList.length = 64 && s.toList.all isHexChar

/-- Decimal digit string to a natural number; fails on an empty list or a
non-digit. -/
def digitsToNat : List Char → Option Nat
  | [] => none
  | cs =>
    if cs.all (fun c => decide (48 ≤ c.toNat) && decide (c.toNat ≤ 57)) then
      some (cs.foldl (fun acc c => acc * 10 + (c.toNat - 48)) 0)
    else none

/-- Embedding of Go `big.Int.SetString(s, 10)`: an optional sign followed by
at least one decimal digit. -/
def parseBigInt (s : String) : Option Int :=
  match s.toList with
  | '+' :: rest => (digitsToNat rest).map Int.ofNat
  | '-' :: rest => (digitsToNat rest).map fun n => -(n : Int)
  | cs => (digitsToNat cs).map Int.ofNat

/-! ### The opaque correlation data (`tokenData`) and its JSON codec -/

/-- The `tokenData` struct: the opaque correlation blob embedded in the
`data` field of commands and echoed back in confirmations. UUIDs and the
32-byte hash are kept in their string wire form. -/
structure TokenData where
  tx : Option String
  txtype : String
  message : Option String
  messageHash : Option String
deriving Repr, DecidableEq

/-- The zero `tokenData`, substituted whenever the blob fails to parse. -/
def emptyTokenData : TokenData :=
  { tx := none, txtype := "", message := none, messageHash := none }

/-- Opening brace character. -/
def lbrace : Char := Char.ofNat 123

/-- Closing brace character. -/
def rbrace : Char := Char.ofNat 125

/-- Characters of one `"key":"value"` member of a JSON object. -/
def fieldChars (k v : String) : List Char :=
  '"' :: k.toList ++ '"' :: ':' :: '"' :: v.toList ++ ['"']

/-- Characters of a comma-separated member list. -/
def sepFields : List (String × String) → List Char
  | [] => []
  | [p] => fieldChars p.1 p.2
  | p :: ps => fieldChars p.1 p.2 ++ ',' :: sepFields ps

/-- The members `encoding/json.Marshal` emits for a `tokenData` value, in
struct order, honouring the `omitempty` tags. -/
def tokenDataFields (d : TokenData) : List (String × String) :=
  (match d.tx with | some t => [("tx", t)] | none => []) ++
  (if d.txtype = "" then [] else [("txtype", d.txtype)]) ++
  (match d.message with | some m => [("message", m)] | none => []) ++
  (match d.messageHash with | some h => [("messageHash", h)] | none => [])

/-- Embedding of `json.Marshal` on a `tokenData` value whose fields contain
no characters requiring JSON escaping (UUID and hex strings never do). -/
def marshalTokenData (d : TokenData) : String :=
  String.mk (lbrace :: (sepFields (tokenDataFields d) ++ [rbrace]))

/-- Scan a JSON string body up to the closing quote; fails on an unterminated
or escaped string (no `tokenData` field ever contains an escape). -/
def spanPlain : List Char → Option (List Char × List Char)
  | [] => none
  | c :: rest =>
    if c = '"' then some ([], rest)
    else if plainChar c then (spanPlain rest).map fun p => (c :: p.1, p.2)
    else none

/-- Parse one JSON string literal, returning its content and the rest. -/
def parseStringLit (cs : List Char) : Option (String × List Char) :=
  match cs with
  | c :: rest =>
    if c = '"' then (spanPlain rest).map fun p => (String.mk p.1, p.2)
    else none
  | [] => none

/-- Parse the members of a JSON object after the opening brace, consuming the
closing brace; fuelled by the input length. -/
def parsePairsAux : Nat → List Char → Option (List (String × String))
  | 0, _ => none
  | Nat.succ fuel, cs =>
    match parseStringLit cs with
    | none => none
    | some (k, rest) =>
      match rest with
      | [] => none
      | c :: rest2 =>
        if c = ':' then
          match parseStringLit rest2 with
          | none => none
          | some (v, rest3) =>
            match rest3 with
            | [c2] => if c2 = rbrace then some [(k, v)] else none
            | c2 :: rest4 =>
              if c2 = ',' then (parsePairsAux fuel rest4).map fun ps => (k, v) :: ps
              else none
            | [] => none
        else none

/-- Parse a flat JSON object (string keys, string values, no whitespace):
the fragment of JSON in which the `tokenData` wire form lives. Any input
outside the fragment fails, which every caller tolerates by substituting
`emptyTokenData`, exactly as `json.Unmarshal` failure is tolerated. -/
def unmarshalPairs (s : String) : Option (List (String × String)) :=
  match s.toList with
  | [] => none
  | c :: rest =>
    if c = lbrace then
      if rest = [rbrace] then some []
      else parsePairsAux (rest.length + 1) rest
    else none

/-- Interpret one parsed member of the `tokenData` object: known fields are
validated and stored (a bad UUID or hash fails the whole parse, as
`json.Unmarshal` does), unknown fields are ignored. -/
def applyTokenDataPair (d : TokenData) (p : String × String) : Option TokenData :=
  if p.1 = "tx" then
    if isUUIDString p.2 then some { d with tx := some p.2 } else none
  else if p.1 = "txtype" then some { d with txtype := p.2 }
  else if p.1 = "message" then
    if isUUIDString p.2 then some { d with message := some p.2 } else none
  else if p.1 = "messageHash" then
    if isBytes32Hex p.2 then some { d with messageHash := some p.2 } else none
  else some d

/-- Embedding of `json.Unmarshal` of a string into `tokenData`, on the flat
string-object fragment the wire form uses. -/
def unmarshalTokenData (s : String) : Option TokenData :=
  (unmarshalPairs s).bind fun ps => ps.foldlM applyTokenDataPair emptyTokenData

/-! ### Domain records -/

/-- `FFTokens.Name()`: the connector kind tag. -/
def connectorKind : String := "fftokens"

/-- `fftypes.TransactionRef`: the transaction reference carried by every
produced record. -/
structure TransactionRef where
  id : Option String
  txType : String
deriving Repr, DecidableEq

/-- The ambient decode context: the configured connector name, the
time-string parser (`fftypes.ParseTimeString`, modelled abstractly since
fftypes is not under src/) and the receive time (`fftypes.Now()`). -/
structure DecodeCtx where
  configuredName : String
  parseTime : String → Option Int
  now : Int

/-- `blockchain.Event`: the on-chain event record the handlers attach. -/
structure BlockchainEvent where
  protocolID : String
  blockchainTXID : String
  source : String
  name : String
  output : JSONObject
  location : String
  signature : String
  info : JSONObject
  timestamp : Int

/-- The on-chain event block built identically in all three record handlers
from the optional `blockchain` sub-object of the payload. -/
def buildBlockchainEvent (c : DecodeCtx) (data : JSONObject) : BlockchainEvent :=
  let blockchainEvent := getObject data "blockchain"
  let blockchainInfo := getObject blockchainEvent "info"
  { protocolID := getString blockchainEvent "id"
    blockchainTXID := getString blockchainInfo "transactionHash"
    source := connectorKind ++ ":" ++ c.configuredName
    name := getString blockchainEvent "name"
    output := getObject blockchainEvent "output"
    location := getString blockchainEvent "location"
    signature := getString blockchainEvent "signature"
    info := blockchainInfo
    timestamp := (c.parseTime (getString blockchainEvent "timestamp")).getD c.now }

/-- `tokens.TokenPool`: the record produced by the pool-create path. -/
structure TokenPool where
  poolType : String
  poolLocator : String
  tx : TransactionRef
  connector : String
  standard : String
  symbol : String
  info : JSONObject
  event : Option BlockchainEvent

/-- `fftypes.TokenTransferType`: the closed mint/burn/transfer enumeration. -/
inductive TokenTransferType where
  | mint
  | burn
  | transfer
deriving Repr, DecidableEq

/-- `tokens.TokenTransfer`: the record produced by the transfer path. -/
structure TokenTransfer where
  poolLocator : String
  transferType : TokenTransferType
  tokenIndex : String
  uri : String
  connector : String
  fromAddr : String
  toAddr : String
  amount : Int
  subject : String
  key : String
  message : Option String
  messageHash : Option String
  tx : TransactionRef
  event : BlockchainEvent

/-- `tokens.TokenApproval`: the record produced by the approval path. -/
structure TokenApproval where
  poolLocator : String
  connector : String
  key : String
  operator : String
  approved : Bool
  subject : String
  tx : TransactionRef
  event : BlockchainEvent

/-- Operation status reported by a receipt (`fftypes.OpStatus`). -/
inductive OpStatus where
  | succeeded
  | failed
deriving Repr, DecidableEq

/-- The arguments `handleReceipt` passes to the `TokenOpUpdate` callback. -/
structure ReceiptUpdate where
  opID : String
  status : OpStatus
  transactionHash : String
  message : String
  payload : JSONObject

/-! ### The event handlers -/

/-- Embedding of `handleTokenPoolCreate`: `none` is the logged skip
("move on"), `some` is the record handed to the `TokenPoolCreated`
callback. -/
def handleTokenPoolCreate (c : DecodeCtx) (data : JSONObject) : Option TokenPool :=
  let tokenType := getString data "type"
  let poolLocator := getString data "poolLocator"
  let standard := getString data "standard"
  let symbol := getString data "symbol"
  let info := getObject data "info"
  let blockchainEvent := getObject data "blockchain"
  let blockchainID := getString blockchainEvent "id"
  let blockchainInfo := getObject blockchainEvent "info"
  let txHash := getString blockchainInfo "transactionHash"
  if tokenType = "" ∨ poolLocator = "" then none
  else
    let poolData := (unmarshalTokenData (getString data "data")).getD emptyTokenData
    let txType := if poolData.txtype = "" then "token_pool" else poolData.txtype
    some
      { poolType := tokenType
        poolLocator := poolLocator
        tx := { id := poolData.tx, txType := txType }
        connector := c.configuredName
        standard := standard
        symbol := symbol
        info := info
        event :=
          if blockchainID ≠ "" ∨ txHash ≠ "" then some (buildBlockchainEvent c data)
          else none }

/-- Embedding of `handleTokenTransfer` (parameterized by the transfer kind):
`none` is the logged skip, `some` the record handed to `TokensTransferred`. -/
def handleTokenTransfer (c : DecodeCtx) (t : TokenTransferType) (data : JSONObject) :
    Option TokenTransfer :=
  let subject := getString data "subject"
  let poolLocator := getString data "poolLocator"
  let signerAddress := getString data "signer"
  let fromAddress := getString data "from"
  let toAddress := getString data "to"
  let value := getString data "amount"
  let tokenIndex := getString data "tokenIndex"
  let uri := getString data "uri"
  if subject = "" ∨ poolLocator = "" ∨ signerAddress = "" ∨ value = "" ∨
      (t ≠ .mint ∧ fromAddress = "") ∨ (t ≠ .burn ∧ toAddress = "") then none
  else
    let transferData := (unmarshalTokenData (getString data "data")).getD emptyTokenData
    match parseBigInt value with
    | none => none
    | some amount =>
      let txType := if transferData.txtype = "" then "token_transfer" else transferData.txtype
      some
        { poolLocator := poolLocator
          transferType := t
          tokenIndex := tokenIndex
          uri := uri
          connector := c.configuredName
          fromAddr := fromAddress
          toAddr := toAddress
          amount := amount
          subject := subject
          key := signerAddress
          message := transferData.message
          messageHash := transferData.messageHash
          tx := { id := transferData.tx, txType := txType }
          event := buildBlockchainEvent c data }

/-- Embedding of `handleTokenApproval`: `none` is the logged skip, `some` the
record handed to `TokensApproved`. -/
def handleTokenApproval (c : DecodeCtx) (data : JSONObject) : Option TokenApproval :=
  let subject := getString data "subject"
  let signerAddress := getString data "signer"
  let poolLocator := getString data "poolLocator"
  let operatorAddress := getString data "operator"
  let approved := getBool data "approved"
  if subject = "" ∨ poolLocator = "" ∨ signerAddress = "" ∨ operatorAddress = "" then none
  else
    let approvalData := (unmarshalTokenData (getString data "data")).getD emptyTokenData
    let txType := if approvalData.txtype = "" then "token_approval" else approvalData.txtype
    some
      { poolLocator := poolLocator
        connector := c.configuredName
        key := signerAddress
        operator := operatorAddress
        approved := approved
        subject := subject
        tx := { id := approvalData.tx, txType := txType }
        event := buildBlockchainEvent c data }

/-- Embedding of `handleReceipt`: `none` is the logged drop (empty or
unparseable request id), `some` the arguments of the `TokenOpUpdate`
callback. -/
def handleReceipt (data : JSONObject) : Option ReceiptUpdate :=
  let requestID := getString data "id"
  let success := getBool data "success"
  let message := getString data "message"
  let transactionHash := getString data "transactionHash"
  if requestID = "" then none
  else
    match parseUUID requestID with
    | none => none
    | some opID =>
      some
        { opID := opID
          status := if success then .succeeded else .failed
          transactionHash := transactionHash
          message := message
          payload := data }

/-! ### The event loop -/

/-- A decoded inbound frame (`wsEvent`): event-kind tag, connector-assigned
identifier, payload object. -/
structure WsEvent where
  event : String
  id : String
  data : JSONObject

/-- The observable effects of the loop, in order: callback invocations and
acknowledgement sends. -/
inductive Action where
  | tokenOpUpdate (r : ReceiptUpdate)
  | tokenPoolCreated (p : TokenPool)
  | tokensTransferred (t : TokenTransfer)
  | tokensApproved (a : TokenApproval)
  | sentAck (frame : JSONValue)

/-- The acknowledgement frame the loop marshals and sends. -/
def ackFrame (id : String) : JSONValue :=
  .obj [("event", .str "ack"), ("data", .obj [("id", .str id)])]

/-- Whether an action is an acknowledgement send. -/
def isAck : Action → Bool
  | .sentAck _ => true
  | _ => false

/-- The loop's environment: the decode context plus oracles giving the error
behaviour of the three fallible callbacks and of `wsconn.Send`. -/
structure LoopEnv where
  dc : DecodeCtx
  poolCreatedErr : TokenPool → Bool
  transferredErr : TokenTransfer → Bool
  approvedErr : TokenApproval → Bool
  sendAckErr : String → Bool

/-- Dispatch of one transfer-kind frame: decode, then invoke the
`TokensTransferred` callback when a record was produced. -/
def transferActions (env : LoopEnv) (t : TokenTransferType) (data : JSONObject) :
    List Action × Bool :=
  match handleTokenTransfer env.dc t data with
  | none => ([], false)
  | some tr => ([Action.tokensTransferred tr], env.transferredErr tr)

/-- Embedding of the `switch msg.Event` dispatch of `eventLoop`: the actions
performed while handling one frame, and whether handling returned an error.
An unrecognized kind is logged only. -/
def handleFrame (env : LoopEnv) (msg : WsEvent) : List Action × Bool :=
  if msg.event = "receipt" then
    match handleReceipt msg.data with
    | none => ([], false)
    | some r => ([Action.tokenOpUpdate r], false)
  else if msg.event = "token-pool" then
    match handleTokenPoolCreate env.dc msg.data with
    | none => ([], false)
    | some p => ([Action.tokenPoolCreated p], env.poolCreatedErr p)
  else if msg.event = "token-mint" then transferActions env .mint msg.data
  else if msg.event = "token-burn" then transferActions env .burn msg.data
  else if msg.event = "token-transfer" then transferActions env .transfer msg.data
  else if msg.event = "token-approval" then
    match handleTokenApproval env.dc msg.data with
    | none => ([], false)
    | some a => ([Action.tokensApproved a], env.approvedErr a)
  else ([], false)

/-- One iteration of the loop body after envelope decode: dispatch, then the
acknowledgement step. The `Bool` is the final `err != nil` test that makes
the loop exit. -/
def processFrame (env : LoopEnv) (msg : WsEvent) : List Action × Bool :=
  let r := handleFrame env msg
  if r.2 then (r.1, true)
  else if msg.event ≠ "receipt" ∧ msg.id ≠ "" then
    if env.sendAckErr msg.id then (r.1, true)
    else (r.1 ++ [Action.sentAck (ackFrame msg.id)], false)
  else (r.1, false)

/-- Embedding of `eventLoop` over the sequence of inbound frames delivered
before the channel closes; `none` models a frame whose envelope fails JSON
parsing (logged and swallowed). Returns the emitted trace and whether the
loop exited because of an error (`true`) rather than end of stream. -/
def eventLoop (env : LoopEnv) : List (Option WsEvent) → List Action × Bool
  | [] => ([], false)
  | none :: rest => eventLoop env rest
  | some msg :: rest =>
    let r := processFrame env msg
    if r.2 then (r.1, true)
    else
      let r2 := eventLoop env rest
      (r.1 ++ r2.1, r2.2)

/-- Every frame in the list is processed without error. -/
def noErrFrames (env : LoopEnv) (l : List (Option WsEvent)) : Bool :=
  l.all fun f =>
    match f with
    | none => true
    | some m => !(processFrame env m).2

/-! ### The command issuer -/

/-- The transport's view of one HTTP round trip: a network failure, or a
status code with the response body (already split at the JSON-object parse:
`none` models a body `json.Unmarshal` rejects). -/
inductive HTTPResponse where
  | netErr
  | resp (status : Nat) (body : Option JSONObject)

/-- `resty.Response.IsSuccess()`: status in the 2xx range. -/
def isSuccess (status : Nat) : Bool :=
  decide (199 < status) && decide (status < 300)

/-- Whether the round trip succeeded at the transport level. -/
def respSuccess : HTTPResponse → Bool
  | .netErr => false
  | .resp s _ => isSuccess s

/-- The errors the issuer operations can return. -/
inductive TokenErr where
  | transport
  | jsonParse
  | callback
deriving Repr, DecidableEq

/-- The correlation string `CreateTokenPool` serializes into the request's
`data` field for a transaction reference. -/
def createPoolCorrelationData (txID txType : String) : String :=
  marshalTokenData { tx := some txID, txtype := txType, message := none, messageHash := none }

/-- Embedding of `CreateTokenPool`'s response interpretation: the
`complete` flag and the returned error, given the transport outcome and the
pool-created callback's error oracle. -/
def CreateTokenPool (c : DecodeCtx) (poolErr : TokenPool → Bool) (r : HTTPResponse) :
    Bool × Option TokenErr :=
  match r with
  | .netErr => (false, some .transport)
  | .resp s body =>
    if isSuccess s = false then (false, some .transport)
    else if s = 200 then
      match body with
      | none => (false, some .jsonParse)
      | some obj =>
        (true,
          match handleTokenPoolCreate c obj with
          | none => none
          | some p => if poolErr p then some .callback else none)
    else (false, none)

/-- Embedding of `ActivateTokenPool`'s response interpretation, identical in
shape to `CreateTokenPool`'s. -/
def ActivateTokenPool (c : DecodeCtx) (poolErr : TokenPool → Bool) (r : HTTPResponse) :
    Bool × Option TokenErr :=
  match r with
  | .netErr => (false, some .transport)
  | .resp s body =>
    if isSuccess s = false then (false, some .transport)
    else if s = 200 then
      match body with
      | none => (false, some .jsonParse)
      | some obj =>
        (true,
          match handleTokenPoolCreate c obj with
          | none => none
          | some p => if poolErr p then some .callback else none)
    else (false, none)

/-- Embedding of `MintTokens`' response interpretation: a submission error
or nil, never a completion flag. -/
def MintTokens (r : HTTPResponse) : Option TokenErr :=
  match r with
  | .netErr => some .transport
  | .resp s _ => if isSuccess s = false then some .transport else none

/-- Embedding of `BurnTokens`' response interpretation. -/
def BurnTokens (r : HTTPResponse) : Option TokenErr :=
  match r with
  | .netErr => some .transport
  | .resp s _ => if isSuccess s = false then some .transport else none

/-- Embedding of `TransferTokens`' response interpretation. -/
def TransferTokens (r : HTTPResponse) : Option TokenErr :=
  match r with
  | .netErr => some .transport
  | .resp s _ => if isSuccess s = false then some .transport else none

/-- Embedding of `TokensApproval`'s response interpretation. -/
def TokensApproval (r : HTTPResponse) : Option TokenErr :=
  match r with
  | .netErr => some .transport
  | .resp s _ => if isSuccess s = false then some .transport else none

/-! ### Sample environment used by the witnesses -/

/-- A concrete decode context for witnesses. -/
def sampleDC : DecodeCtx :=
  { configuredName := "conn1", parseTime := fun _ => none, now := 42 }

/-- A concrete loop environment in which every callback and send succeeds. -/
def sampleEnv : LoopEnv :=
  { dc := sampleDC
    poolCreatedErr := fun _ => false
    transferredErr := fun _ => false
    approvedErr := fun _ => false
    sendAckErr := fun _ => false }

/-! ### Helper lemmas -/

/-- The required-field constraint the transfer decoder enforces: subject,
pool locator, signer and amount always; `from` unless mint; `to` unless
burn. -/
def transferFieldsOk (t : TokenTransferType) (data : JSONObject) : Prop :=
  getString data "subject" ≠ "" ∧ getString data "poolLocator" ≠ "" ∧
  getString data "signer" ≠ "" ∧ getString data "amount" ≠ "" ∧
  (t ≠ .mint → getString data "from" ≠ "") ∧
  (t ≠ .burn → getString data "to" ≠ "")

instance (t : TokenTransferType) (data : JSONObject) :
    Decidable (transferFieldsOk t data) := by
  unfold transferFieldsOk
  infer_instance

/-- The event-kind tag dispatching to `handleTokenTransfer` with each kind. -/
def transferEventName : TokenTransferType → String
  | .mint => "token-mint"
  | .burn => "token-burn"
  | .transfer => "token-transfer"

theorem transferFieldsOk_iff (t : TokenTransferType) (data : JSONObject) :
    transferFieldsOk t data ↔
      ¬(getString data "subject" = "" ∨ getString data "poolLocator" = "" ∨
        getString data "signer" = "" ∨ getString data "amount" = "" ∨
        (t ≠ .mint ∧ getString data "from" = "") ∨
        (t ≠ .burn ∧ getString data "to" = "")) := by
  unfold transferFieldsOk
  push_neg
  tauto

theorem handleTokenTransfer_eq_none_of_not_fieldsOk (c : DecodeCtx)
    (t : TokenTransferType) (data : JSONObject) (h : ¬ transferFieldsOk t data) :
    handleTokenTransfer c t data = none := by
  rw [transferFieldsOk_iff, not_not] at h
  simp only [handleTokenTransfer]
  split
  · rfl
  · next hneg => exact absurd h hneg

theorem transferFieldsOk_of_isSome (c : DecodeCtx) (t : TokenTransferType)
    (data : JSONObject) (h : (handleTokenTransfer c t data).isSome) :
    transferFieldsOk t data := by
  by_contra hn
  rw [handleTokenTransfer_eq_none_of_not_fieldsOk c t data hn] at h
  simp at h

theorem handleTokenTransfer_eq_none_of_badAmount (c : DecodeCtx)
    (t : TokenTransferType) (data : JSONObject)
    (h : parseBigInt (getString data "amount") = none) :
    handleTokenTransfer c t data = none := by
  simp only [handleTokenTransfer]
  split
  · rfl
  · simp only [h]

/-! ### Claims -/

/-- Claim C1: the transfer decoder produces a record only when subject, pool
locator, signer and amount are all non-empty, `from` is non-empty unless the
kind is mint, and `to` is non-empty unless the kind is burn; a payload
violating these constraints is skipped — no record, no callback invocation,
no error. -/
theorem c1_transfer_required_fields (env : LoopEnv) (t : TokenTransferType)
    (data : JSONObject) (mid : String) :
    ((handleTokenTransfer env.dc t data).isSome → transferFieldsOk t data) ∧
    (¬ transferFieldsOk t data →
      handleTokenTransfer env.dc t data = none ∧
      handleFrame env ⟨transferEventName t, mid, data⟩ = ([], false)) := by
  refine ⟨transferFieldsOk_of_isSome env.dc t data, fun hn => ⟨?_, ?_⟩⟩
  · exact handleTokenTransfer_eq_none_of_not_fieldsOk env.dc t data hn
  · have hnone := handleTokenTransfer_eq_none_of_not_fieldsOk env.dc t data hn
    cases t <;>
      simp [handleFrame, transferActions, transferEventName, hnone]

/-- Witness for C1: a mint payload with subject, pool locator, signer and
amount but no `to` is skipped with no callback and no error. -/
theorem c1_witness :
    handleTokenTransfer sampleEnv.dc .mint
        [("subject", .str "s1"), ("poolLocator", .str "p1"),
         ("signer", .str "0xabc"), ("amount", .str "5")] = none ∧
    handleFrame sampleEnv
        ⟨"token-mint", "m1",
         [("subject", .str "s1"), ("poolLocator", .str "p1"),
          ("signer", .str "0xabc"), ("amount", .str "5")]⟩ = ([], false) :=
  (c1_transfer_required_fields sampleEnv .mint
    [("subject", .str "s1"), ("poolLocator", .str "p1"),
     ("signer", .str "0xabc"), ("amount", .str "5")] "m1").2 (by decide)

/-- Claim C2: a transfer payload whose amount string does not parse as a
base-10 big integer is skipped: no record, no callback, no error, and the
loop still acknowledges the frame and continues. -/
theorem c2_transfer_bad_amount (env : LoopEnv) (t : TokenTransferType)
    (data : JSONObject) (mid : String)
    (hamt : parseBigInt (getString data "amount") = none)
    (hmid : mid ≠ "") (hsend : env.sendAckErr mid = false) :
    handleTokenTransfer env.dc t data = none ∧
    processFrame env ⟨transferEventName t, mid, data⟩ =
      ([Action.sentAck (ackFrame mid)], false) := by
  have hnone := handleTokenTransfer_eq_none_of_badAmount env.dc t data hamt
  refine ⟨hnone, ?_⟩
  cases t <;>
    simp [processFrame, handleFrame, transferActions, transferEventName, hnone, hmid, hsend]

/-- Witness for C2: a transfer payload with amount `"12x"` is skipped and the
frame is still acknowledged. -/
theorem c2_witness :
    handleTokenTransfer sampleEnv.dc .transfer
        [("subject", .str "s1"), ("poolLocator", .str "p1"),
         ("signer", .str "0xabc"), ("from", .str "0xa"), ("to", .str "0xb"),
         ("amount", .str "12x")] = none ∧
    processFrame sampleEnv
        ⟨"token-transfer", "t1",
         [("subject", .str "s1"), ("poolLocator", .str "p1"),
          ("signer", .str "0xabc"), ("from", .str "0xa"), ("to", .str "0xb"),
          ("amount", .str "12x")]⟩ = ([Action.sentAck (ackFrame "t1")], false) :=
  c2_transfer_bad_amount sampleEnv .transfer
    [("subject", .str "s1"), ("poolLocator", .str "p1"),
     ("signer", .str "0xabc"), ("from", .str "0xa"), ("to", .str "0xb"),
     ("amount", .str "12x")] "t1" (by decide) (by decide) (by decide)

/-- `getBool` is true exactly when the field is present with JSON boolean
value `true`. -/
theorem getBool_eq_true_iff (o : JSONObject) (k : String) :
    getBool o k = true ↔ jsonLookup o k = some (.boolean true) := by
  unfold getBool
  cases h : jsonLookup o k with
  | none => simp
  | some v => cases v <;> simp

/-- Claim C7: a pool-create payload with empty type or empty pool locator is
skipped (no record, no callback, no error); otherwise a pool record is
produced whose on-chain event is attached exactly when the blockchain
sub-object carries a non-empty protocol id or a non-empty transaction
hash. -/
theorem c7_pool_create_gating (env : LoopEnv) (data : JSONObject) (mid : String) :
    ((getString data "type" = "" ∨ getString data "poolLocator" = "") →
      handleTokenPoolCreate env.dc data = none ∧
      handleFrame env ⟨"token-pool", mid, data⟩ = ([], false)) ∧
    (getString data "type" ≠ "" → getString data "poolLocator" ≠ "" →
      ∃ p, handleTokenPoolCreate env.dc data = some p ∧
        (p.event.isSome = true ↔
          (getString (getObject data "blockchain") "id" ≠ "" ∨
           getString (getObject (getObject data "blockchain") "info") "transactionHash" ≠ ""))) := by
  constructor
  · intro h
    have hnone : handleTokenPoolCreate env.dc data = none := by
      simp only [handleTokenPoolCreate]
      split
      · rfl
      · next hneg => exact absurd h hneg
    exact ⟨hnone, by simp [handleFrame, hnone]⟩
  · intro h1 h2
    simp only [handleTokenPoolCreate]
    rw [if_neg (by tauto)]
    refine ⟨_, rfl, ?_⟩
    by_cases hc :
        getString (getObject data "blockchain") "id" ≠ "" ∨
          getString (getObject (getObject data "blockchain") "info") "transactionHash" ≠ ""
    · simp [hc]
    · simp [hc]

/-- Witness for C7: a pool-create payload with type and locator but no
blockchain sub-object yields a record with no attached on-chain event. -/
theorem c7_witness :
    ∃ p, handleTokenPoolCreate sampleEnv.dc
        [("type", .str "fungible"), ("poolLocator", .str "pool1")] = some p ∧
      (p.event.isSome = true ↔
        (getString (getObject [("type", JSONValue.str "fungible"),
            ("poolLocator", JSONValue.str "pool1")] "blockchain") "id" ≠ "" ∨
         getString (getObject (getObject [("type", JSONValue.str "fungible"),
            ("poolLocator", JSONValue.str "pool1")] "blockchain") "info") "transactionHash" ≠ "")) :=
  (c7_pool_create_gating sampleEnv
    [("type", .str "fungible"), ("poolLocator", .str "pool1")] "p1").2
    (by decide) (by decide)

/-- Claim C9 (implicit): an approval payload passing required-field
validation always produces a record — the `approved` field is not validated;
its value is the payload's boolean `approved` field, which is `false`
whenever the key is absent or its value is not the JSON boolean `true`. -/
theorem c9_approval_approved_not_validated (c : DecodeCtx) (data : JSONObject)
    (h1 : getString data "subject" ≠ "") (h2 : getString data "poolLocator" ≠ "")
    (h3 : getString data "signer" ≠ "") (h4 : getString data "operator" ≠ "") :
    ∃ a, handleTokenApproval c data = some a ∧
      (a.approved = true ↔ jsonLookup data "approved" = some (.boolean true)) ∧
      (jsonLookup data "approved" = none → a.approved = false) := by
  simp only [handleTokenApproval]
  rw [if_neg (by tauto)]
  refine ⟨_, rfl, ?_, ?_⟩
  · exact getBool_eq_true_iff data "approved"
  · intro h
    unfold getBool
    rw [h]

/-- Witness for C9: an approval payload with all required fields and no
`approved` key produces a record reported as a revocation. -/
theorem c9_witness :
    ∃ a, handleTokenApproval sampleDC
        [("subject", .str "s1"), ("poolLocator", .str "p1"),
         ("signer", .str "0xabc"), ("operator", .str "0xop")] = some a ∧
      (a.approved = true ↔
        jsonLookup [("subject", JSONValue.str "s1"), ("poolLocator", JSONValue.str "p1"),
          ("signer", JSONValue.str "0xabc"), ("operator", JSONValue.str "0xop")] "approved" =
          some (.boolean true)) ∧
      (jsonLookup [("subject", JSONValue.str "s1"), ("poolLocator", JSONValue.str "p1"),
          ("signer", JSONValue.str "0xabc"), ("operator", JSONValue.str "0xop")] "approved" =
          none → a.approved = false) :=
  c9_approval_approved_not_validated sampleDC
    [("subject", .str "s1"), ("poolLocator", .str "p1"),
     ("signer", .str "0xabc"), ("operator", .str "0xop")]
    (by decide) (by decide) (by decide) (by decide)

/-- Claim C10 (implicit): every transfer or approval record carries an
attached on-chain event unconditionally, whose source is `fftokens:` followed
by the configured connector name and whose timestamp is the parsed payload
timestamp or the receive time; the significant-data gating of pool-create
does not apply here. -/
theorem c10_transfer_approval_event_attached (c : DecodeCtx) (data : JSONObject)
    (t : TokenTransferType) :
    (∀ tr, handleTokenTransfer c t data = some tr →
      tr.event = buildBlockchainEvent c data ∧
      tr.event.source = "fftokens:" ++ c.configuredName ∧
      tr.event.timestamp =
        (c.parseTime (getString (getObject data "blockchain") "timestamp")).getD c.now) ∧
    (∀ a, handleTokenApproval c data = some a →
      a.event = buildBlockchainEvent c data ∧
      a.event.source = "fftokens:" ++ c.configuredName ∧
      a.event.timestamp =
        (c.parseTime (getString (getObject data "blockchain") "timestamp")).getD c.now) := by
  constructor
  · intro tr h
    simp only [handleTokenTransfer] at h
    split at h
    · exact absurd h (by simp)
    · split at h
      · exact absurd h (by simp)
      · rw [Option.some.injEq] at h
        subst h
        exact ⟨rfl, rfl, rfl⟩
  · intro a h
    simp only [handleTokenApproval] at h
    split at h
    · exact absurd h (by simp)
    · rw [Option.some.injEq] at h
      subst h
      exact ⟨rfl, rfl, rfl⟩

/-- Witness for C10: a transfer payload with no blockchain sub-object still
yields a record with an attached event sourced `fftokens:conn1` and stamped
with the receive time. -/
theorem c10_witness :
    ∀ tr, handleTokenTransfer sampleDC .transfer
        [("subject", .str "s1"), ("poolLocator", .str "p1"),
         ("signer", .str "0xabc"), ("from", .str "0xa"), ("to", .str "0xb"),
         ("amount", .str "5")] = some tr →
      tr.event = buildBlockchainEvent sampleDC
        [("subject", .str "s1"), ("poolLocator", .str "p1"),
         ("signer", .str "0xabc"), ("from", .str "0xa"), ("to", .str "0xb"),
         ("amount", .str "5")] ∧
      tr.event.source = "fftokens:" ++ sampleDC.configuredName ∧
      tr.event.timestamp =
        (sampleDC.parseTime (getString (getObject
          [("subject", JSONValue.str "s1"), ("poolLocator", JSONValue.str "p1"),
           ("signer", JSONValue.str "0xabc"), ("from", JSONValue.str "0xa"),
           ("to", JSONValue.str "0xb"), ("amount", JSONValue.str "5")]
          "blockchain") "timestamp")).getD sampleDC.now :=
  (c10_transfer_approval_event_attached sampleDC
    [("subject", .str "s1"), ("poolLocator", .str "p1"),
     ("signer", .str "0xabc"), ("from", .str "0xa"), ("to", .str "0xb"),
     ("amount", .str "5")] .transfer).1

/-- Claim C6: a receipt whose `id` is empty or not a parseable operation
identifier is dropped with no callback; otherwise the receipt-update
callback is invoked with status succeeded exactly when the success flag is
true, together with the transaction hash and message; a receipt frame is
never acknowledged and the loop continues. -/
theorem c6_receipt_handling (env : LoopEnv) (data : JSONObject) (mid : String) :
    ((getString data "id" = "" ∨ parseUUID (getString data "id") = none) →
      handleReceipt data = none) ∧
    (∀ u, parseUUID (getString data "id") = some u →
      handleReceipt data = some
        { opID := u
          status := if getBool data "success" then .succeeded else .failed
          transactionHash := getString data "transactionHash"
          message := getString data "message"
          payload := data }) ∧
    (processFrame env ⟨"receipt", mid, data⟩ =
        ((handleFrame env ⟨"receipt", mid, data⟩).1, false) ∧
      (processFrame env ⟨"receipt", mid, data⟩).1.countP isAck = 0) := by
  refine ⟨?_, ?_, ?_⟩
  · intro h
    simp only [handleReceipt]
    rcases h with h | h
    · rw [if_pos h]
    · split
      · rfl
      · rw [h]
  · intro u hu
    have hne : getString data "id" ≠ "" := by
      intro he
      rw [he] at hu
      simp [parseUUID, isUUIDString] at hu
    simp only [handleReceipt]
    rw [if_neg hne, hu]
  · cases hr : handleReceipt data <;>
      simp [processFrame, handleFrame, hr, isAck]

/-- Witness for C6: a receipt with a valid UUID and `success:true` invokes
the callback with status succeeded and hash `0xabc`. -/
theorem c6_witness :
    handleReceipt
        [("id", .str "11223344-5566-7788-99aa-bbccddeeff00"),
         ("success", .boolean true), ("transactionHash", .str "0xabc")] = some
      { opID := "11223344-5566-7788-99aa-bbccddeeff00"
        status := if getBool [("id", JSONValue.str "11223344-5566-7788-99aa-bbccddeeff00"),
            ("success", JSONValue.boolean true), ("transactionHash", JSONValue.str "0xabc")]
            "success" then .succeeded else .failed
        transactionHash := getString [("id", JSONValue.str "11223344-5566-7788-99aa-bbccddeeff00"),
            ("success", JSONValue.boolean true), ("transactionHash", JSONValue.str "0xabc")]
            "transactionHash"
        message := getString [("id", JSONValue.str "11223344-5566-7788-99aa-bbccddeeff00"),
            ("success", JSONValue.boolean true), ("transactionHash", JSONValue.str "0xabc")]
            "message"
        payload := [("id", JSONValue.str "11223344-5566-7788-99aa-bbccddeeff00"),
            ("success", JSONValue.boolean true), ("transactionHash", JSONValue.str "0xabc")] } :=
  (c6_receipt_handling sampleEnv
    [("id", .str "11223344-5566-7788-99aa-bbccddeeff00"),
     ("success", .boolean true), ("transactionHash", .str "0xabc")] "r1").2.1
    "11223344-5566-7788-99aa-bbccddeeff00" (by decide)

/-- The dispatch step never sends an acknowledgement: acks are sent only by
the dedicated send after the handler returns. -/
theorem handleFrame_no_ack (env : LoopEnv) (msg : WsEvent) :
    (handleFrame env msg).1.countP isAck = 0 := by
  unfold handleFrame transferActions
  repeat' split
  all_goals simp [isAck]

/-- A receipt frame's dispatch reports no error. -/
theorem handleFrame_receipt_no_err (env : LoopEnv) (msg : WsEvent)
    (h : msg.event = "receipt") : (handleFrame env msg).2 = false := by
  unfold handleFrame
  rw [if_pos h]
  split <;> rfl

/-- Claim C4: for a non-receipt frame with a non-empty identifier whose
handler completes without error, exactly one acknowledgement frame
`ack/data.id` carrying the same identifier is sent, strictly after the
handler's callback actions; receipt frames, empty-identifier frames and
frames whose handler errored are never acknowledged. -/
theorem c4_ack_protocol (env : LoopEnv) (msg : WsEvent) :
    (msg.event ≠ "receipt" → msg.id ≠ "" → (handleFrame env msg).2 = false →
      env.sendAckErr msg.id = false →
      processFrame env msg =
        ((handleFrame env msg).1 ++ [Action.sentAck (ackFrame msg.id)], false) ∧
      (handleFrame env msg).1.countP isAck = 0) ∧
    (msg.event = "receipt" →
      processFrame env msg = ((handleFrame env msg).1, false) ∧
      (processFrame env msg).1.countP isAck = 0) ∧
    (msg.id = "" →
      processFrame env msg = ((handleFrame env msg).1, (handleFrame env msg).2) ∧
      (processFrame env msg).1.countP isAck = 0) ∧
    ((handleFrame env msg).2 = true →
      processFrame env msg = ((handleFrame env msg).1, true) ∧
      (processFrame env msg).1.countP isAck = 0) := by
  refine ⟨?_, ?_, ?_, ?_⟩
  · intro h1 h2 h3 h4
    refine ⟨?_, handleFrame_no_ack env msg⟩
    simp [processFrame, h1, h2, h3, h4]
  · intro h
    have he := handleFrame_receipt_no_err env msg h
    constructor
    · simp [processFrame, he, h]
    · simp [processFrame, he, h, handleFrame_no_ack env msg]
  · intro h
    by_cases he : (handleFrame env msg).2
    · exact ⟨by simp [processFrame, he, h], by simp [processFrame, he, h, handleFrame_no_ack env msg]⟩
    · have he' : (handleFrame env msg).2 = false := by simpa using he
      exact ⟨by simp [processFrame, he', h], by
        simp [processFrame, he', h, handleFrame_no_ack env msg]⟩
  · intro he
    exact ⟨by simp [processFrame, he], by simp [processFrame, he, handleFrame_no_ack env msg]⟩

/-- Witness for C4: an unknown-kind frame with identifier `x1` in the
all-success environment is acknowledged exactly once, after its (empty)
handler actions. -/
theorem c4_witness :
    processFrame sampleEnv ⟨"other", "x1", []⟩ =
      ((handleFrame sampleEnv ⟨"other", "x1", []⟩).1 ++
        [Action.sentAck (ackFrame "x1")], false) ∧
    (handleFrame sampleEnv ⟨"other", "x1", []⟩).1.countP isAck = 0 :=
  (c4_ack_protocol sampleEnv ⟨"other", "x1", []⟩).1
    (by decide) (by decide) (by rfl) (by rfl)

/-- Termination is rest-independent: once the frame at hand errors, the
loop's output is the prefix trace plus that frame's actions, whatever was
still queued. -/
theorem eventLoop_stops_after_err (env : LoopEnv) (pre : List (Option WsEvent))
    (msg : WsEvent) (rest : List (Option WsEvent))
    (hpre : noErrFrames env pre = true) (h : (processFrame env msg).2 = true) :
    eventLoop env (pre ++ some msg :: rest) =
      ((eventLoop env pre).1 ++ (processFrame env msg).1, true) := by
  induction pre with
  | nil => simp [eventLoop, h]
  | cons f fs ih =>
    cases f with
    | none =>
      have hfs : noErrFrames env fs = true := by simpa [noErrFrames] using hpre
      simpa [eventLoop] using ih hfs
    | some m =>
      have hok : (processFrame env m).2 = false := by
        have := (by simpa [noErrFrames] using hpre :
          (processFrame env m).2 = false ∧ noErrFrames env fs = true)
        exact this.1
      have hfs : noErrFrames env fs = true := by
        have := (by simpa [noErrFrames] using hpre :
          (processFrame env m).2 = false ∧ noErrFrames env fs = true)
        exact this.2
      simp [eventLoop, hok, ih hfs, List.append_assoc]

/-- Claim C5: if a frame's dispatched callback returns an error, or sending
its acknowledgement fails, the event loop terminates after that frame: the
error exit is taken and no later frame contributes any processing or
acknowledgement to the trace. -/
theorem c5_fail_fast (env : LoopEnv) (pre : List (Option WsEvent)) (msg : WsEvent)
    (rest : List (Option WsEvent))
    (herr : (handleFrame env msg).2 = true ∨
      (msg.event ≠ "receipt" ∧ msg.id ≠ "" ∧ (handleFrame env msg).2 = false ∧
        env.sendAckErr msg.id = true))
    (hpre : noErrFrames env pre = true) :
    (processFrame env msg).2 = true ∧
    eventLoop env (pre ++ some msg :: rest) =
      ((eventLoop env pre).1 ++ (processFrame env msg).1, true) := by
  have h : (processFrame env msg).2 = true := by
    rcases herr with he | ⟨h1, h2, h3, h4⟩
    · simp [processFrame, he]
    · simp [processFrame, h1, h2, h3, h4]
  exact ⟨h, eventLoop_stops_after_err env pre msg rest hpre h⟩

/-- Witness for C5: with a pool-created callback that fails, a valid
pool-create frame terminates the loop and the queued next frame is never
processed. -/
theorem c5_witness :
    (processFrame
        { sampleEnv with poolCreatedErr := fun _ => true }
        ⟨"token-pool", "p1", [("type", .str "fungible"), ("poolLocator", .str "pool1")]⟩).2 =
      true ∧
    eventLoop { sampleEnv with poolCreatedErr := fun _ => true }
        ([] ++ some ⟨"token-pool", "p1",
          [("type", .str "fungible"), ("poolLocator", .str "pool1")]⟩ ::
          [some ⟨"token-pool", "p2",
            [("type", .str "fungible"), ("poolLocator", .str "pool2")]⟩]) =
      ((eventLoop { sampleEnv with poolCreatedErr := fun _ => true } []).1 ++
        (processFrame { sampleEnv with poolCreatedErr := fun _ => true }
          ⟨"token-pool", "p1",
            [("type", .str "fungible"), ("poolLocator", .str "pool1")]⟩).1, true) :=
  c5_fail_fast { sampleEnv with poolCreatedErr := fun _ => true } []
    ⟨"token-pool", "p1", [("type", .str "fungible"), ("poolLocator", .str "pool1")]⟩
    [some ⟨"token-pool", "p2", [("type", .str "fungible"), ("poolLocator", .str "pool2")]⟩]
    (Or.inl (by rfl)) (by rfl)

/-- Counterexample to claim C8 as stated: a 200-status response whose body
is not a JSON object makes `CreateTokenPool` return `complete = false` (with
a parse error), so complete=true does not hold "exactly when the response
status is 200". -/
theorem c8_counterexample :
    CreateTokenPool sampleDC (fun _ => false) (.resp 200 none) =
      (false, some .jsonParse) := rfl

/-- Claim C8 (amended): create-pool and activate-pool return complete=true
exactly when the status is 200 and the body parses as a JSON object (the
body is then decoded through the pool-create path); a 200 with an
unparseable body yields complete=false and a parse error; any other success
status yields complete=false with no error; network failure or non-success
status yields a transport error; mint, burn, transfer and approval return
only a submission error or nil, never a completion flag. -/
theorem c8_sync_completion (c : DecodeCtx) (poolErr : TokenPool → Bool) :
    (∀ obj, CreateTokenPool c poolErr (.resp 200 (some obj)) =
        (true, match handleTokenPoolCreate c obj with
               | none => none
               | some p => if poolErr p then some TokenErr.callback else none) ∧
      ActivateTokenPool c poolErr (.resp 200 (some obj)) =
        (true, match handleTokenPoolCreate c obj with
               | none => none
               | some p => if poolErr p then some TokenErr.callback else none)) ∧
    (CreateTokenPool c poolErr (.resp 200 none) = (false, some .jsonParse) ∧
      ActivateTokenPool c poolErr (.resp 200 none) = (false, some .jsonParse)) ∧
    (∀ s body, isSuccess s = true → s ≠ 200 →
      CreateTokenPool c poolErr (.resp s body) = (false, none) ∧
      ActivateTokenPool c poolErr (.resp s body) = (false, none)) ∧
    (∀ s body, isSuccess s = false →
      CreateTokenPool c poolErr (.resp s body) = (false, some .transport) ∧
      ActivateTokenPool c poolErr (.resp s body) = (false, some .transport)) ∧
    (CreateTokenPool c poolErr .netErr = (false, some .transport) ∧
      ActivateTokenPool c poolErr .netErr = (false, some .transport)) ∧
    (∀ r, MintTokens r = (if respSuccess r then none else some .transport) ∧
      BurnTokens r = (if respSuccess r then none else some .transport) ∧
      TransferTokens r = (if respSuccess r then none else some .transport) ∧
      TokensApproval r = (if respSuccess r then none else some .transport)) := by
  refine ⟨fun obj => ⟨rfl, rfl⟩, ⟨rfl, rfl⟩, ?_, ?_, ⟨rfl, rfl⟩, ?_⟩
  · intro s body hs h200
    constructor <;> simp [CreateTokenPool, ActivateTokenPool, hs, h200]
  · intro s body hs
    constructor <;> simp [CreateTokenPool, ActivateTokenPool, hs]
  · intro r
    cases r with
    | netErr => simp [MintTokens, BurnTokens, TransferTokens, TokensApproval, respSuccess]
    | resp s body =>
      by_cases hs : isSuccess s <;>
        simp [MintTokens, BurnTokens, TransferTokens, TokensApproval, respSuccess, hs]

/-- Witness for C8 (amended): a 202 accepted response on create-pool is
pending (complete=false, no error), and a mint over a failing transport
returns a transport error. -/
theorem c8_witness :
    (CreateTokenPool sampleDC (fun _ => false) (.resp 202 none) = (false, none) ∧
      ActivateTokenPool sampleDC (fun _ => false) (.resp 202 none) = (false, none)) ∧
    MintTokens (.resp 500 none) =
      (if respSuccess (.resp 500 none) then none else some .transport) :=
  ⟨(c8_sync_completion sampleDC (fun _ => false)).2.2.1 202 none (by decide) (by decide),
   ((c8_sync_completion sampleDC (fun _ => false)).2.2.2.2.2 (.resp 500 none)).1⟩

/-! ### Round trip of the opaque correlation data (claim C3) -/

theorem plainChar_ne_quote {c : Char} (h : plainChar c = true) : c ≠ '"' := by
  intro he
  rw [he] at h
  exact absurd h (by decide)

theorem hex_plain {c : Char} (h : isHexChar c = true) : plainChar c = true := by
  unfold isHexChar at h
  unfold plainChar
  simp only [Bool.or_eq_true, Bool.and_eq_true, decide_eq_true_eq] at h ⊢
  omega

/-- Every character of a canonical UUID string needs no JSON escaping. -/
theorem plain_of_uuid (s : String) (h : isUUIDString s = true) :
    ∀ c ∈ s.toList, plainChar c = true := by
  intro c hc
  unfold isUUIDString at h
  rw [Bool.and_eq_true] at h
  obtain ⟨hlen, hall⟩ := h
  rw [List.all_eq_true] at hall
  have hlen36 : s.toList.length = 36 := of_decide_eq_true hlen
  obtain ⟨i, hilt, hgi⟩ := List.mem_iff_getElem.mp hc
  have hi36 : i < 36 := by rw [hlen36] at hilt; exact hilt
  have hslot := hall i (List.mem_range.mpr hi36)
  have hgd : s.toList.getD i ' ' = c := by
    rw [List.getD_eq_getElem _ _ hilt]
    exact hgi
  rw [hgd] at hslot
  unfold uuidSlotOk at hslot
  split at hslot
  · have hc' : c = '-' := of_decide_eq_true hslot
    subst hc'
    decide
  · exact hex_plain hslot

theorem spanPlain_append (xs r : List Char) (h : ∀ c ∈ xs, plainChar c = true) :
    spanPlain (xs ++ '"' :: r) = some (xs, r) := by
  induction xs with
  | nil => simp [spanPlain]
  | cons c cs ih =>
    have hc : plainChar c = true := h c (by simp)
    have hcs : ∀ x ∈ cs, plainChar x = true := fun x hx => h x (by simp [hx])
    simp [spanPlain, plainChar_ne_quote hc, hc, ih hcs]

theorem toList_mk (l : List Char) : (String.mk l).toList = l := rfl

theorem mk_toList (s : String) : String.mk s.toList = s := rfl

theorem parseStringLit_append (xs r : List Char) (h : ∀ c ∈ xs, plainChar c = true) :
    parseStringLit ('"' :: (xs ++ '"' :: r)) = some (String.mk xs, r) := by
  simp [parseStringLit, spanPlain_append xs r h]

/-- Parsing the final `"k":"v"` member before the closing brace. -/
theorem parsePairsAux_last (ks vs : List Char) (n : Nat)
    (hk : ∀ c ∈ ks, plainChar c = true) (hv : ∀ c ∈ vs, plainChar c = true) :
    parsePairsAux (n + 1) ('"' :: (ks ++ '"' :: ':' :: '"' :: (vs ++ ['"', rbrace]))) =
      some [(String.mk ks, String.mk vs)] := by
  have hk' := parseStringLit_append ks (':' :: '"' :: (vs ++ ['"', rbrace])) hk
  have hv' := parseStringLit_append vs [rbrace] hv
  simp [parsePairsAux, hk', hv']

/-- Parsing two members and the closing brace. -/
theorem parsePairsAux_two (ks1 vs1 ks2 vs2 : List Char) (n : Nat)
    (hk1 : ∀ c ∈ ks1, plainChar c = true) (hv1 : ∀ c ∈ vs1, plainChar c = true)
    (hk2 : ∀ c ∈ ks2, plainChar c = true) (hv2 : ∀ c ∈ vs2, plainChar c = true) :
    parsePairsAux (n + 2)
        ('"' :: (ks1 ++ '"' :: ':' :: '"' :: (vs1 ++ '"' :: ',' ::
          '"' :: (ks2 ++ '"' :: ':' :: '"' :: (vs2 ++ ['"', rbrace]))))) =
      some [(String.mk ks1, String.mk vs1), (String.mk ks2, String.mk vs2)] := by
  have hk1' := parseStringLit_append ks1
    (':' :: '"' :: (vs1 ++ '"' :: ',' ::
      '"' :: (ks2 ++ '"' :: ':' :: '"' :: (vs2 ++ ['"', rbrace])))) hk1
  have hv1' := parseStringLit_append vs1
    (',' :: '"' :: (ks2 ++ '"' :: ':' :: '"' :: (vs2 ++ ['"', rbrace]))) hv1
  have hk2' := parseStringLit_append ks2 (':' :: '"' :: (vs2 ++ ['"', rbrace])) hk2
  have hv2' := parseStringLit_append vs2 [rbrace] hv2
  simp [parsePairsAux, hk1', hv1', hk2', hv2']

theorem quote_ne_rbrace : ('"' : Char) ≠ rbrace := by decide

/-- Top-level parse of a two-member object. -/
theorem unmarshalPairs_two (ks1 vs1 ks2 vs2 : List Char)
    (hk1 : ∀ c ∈ ks1, plainChar c = true) (hv1 : ∀ c ∈ vs1, plainChar c = true)
    (hk2 : ∀ c ∈ ks2, plainChar c = true) (hv2 : ∀ c ∈ vs2, plainChar c = true)
    (rest : List Char)
    (hR : rest = '"' :: (ks1 ++ '"' :: ':' :: '"' :: (vs1 ++ '"' :: ',' ::
      '"' :: (ks2 ++ '"' :: ':' :: '"' :: (vs2 ++ ['"', rbrace]))))) :
    unmarshalPairs (String.mk (lbrace :: rest)) =
      some [(String.mk ks1, String.mk vs1), (String.mk ks2, String.mk vs2)] := by
  have hne : ¬ (rest = [rbrace]) := by
    rw [hR]
    intro h
    exact absurd (List.cons.inj h).1 quote_ne_rbrace
  unfold unmarshalPairs
  rw [toList_mk]
  dsimp only
  rw [if_pos rfl, if_neg hne]
  have h1 : 1 ≤ rest.length := by rw [hR]; simp
  obtain ⟨m, hm⟩ : ∃ m, rest.length + 1 = m + 2 := ⟨rest.length - 1, by omega⟩
  rw [hm, hR]
  exact parsePairsAux_two ks1 vs1 ks2 vs2 m hk1 hv1 hk2 hv2

/-- The `tokenData` blob carrying a transaction id and kind survives the
marshal/unmarshal round trip unchanged. -/
theorem unmarshal_marshal_roundtrip (txID txType : String)
    (hu : isUUIDString txID = true) (ht : txType ≠ "")
    (hp : ∀ c ∈ txType.toList, plainChar c = true) :
    unmarshalTokenData (marshalTokenData
      { tx := some txID, txtype := txType, message := none, messageHash := none }) =
      some { tx := some txID, txtype := txType, message := none, messageHash := none } := by
  have hup := plain_of_uuid txID hu
  have hfields : tokenDataFields
      { tx := some txID, txtype := txType, message := none, messageHash := none } =
      [("tx", txID), ("txtype", txType)] := by
    simp [tokenDataFields, ht]
  have htx : "tx".toList = ['t', 'x'] := rfl
  have htxt : "txtype".toList = ['t', 'x', 't', 'y', 'p', 'e'] := rfl
  have hchars : lbrace :: (sepFields (tokenDataFields
      { tx := some txID, txtype := txType, message := none, messageHash := none }) ++ [rbrace]) =
      lbrace :: ('"' :: (['t', 'x'] ++ '"' :: ':' :: '"' ::
        (txID.toList ++ '"' :: ',' :: '"' :: (['t', 'x', 't', 'y', 'p', 'e'] ++
          '"' :: ':' :: '"' :: (txType.toList ++ ['"', rbrace]))))) := by
    rw [hfields]
    simp [sepFields, fieldChars, htx, htxt]
  unfold unmarshalTokenData marshalTokenData
  rw [hchars,
    unmarshalPairs_two ['t', 'x'] txID.toList ['t', 'x', 't', 'y', 'p', 'e'] txType.toList
      (by decide) hup (by decide) hp _ rfl]
  rw [mk_toList, mk_toList]
  have hmk1 : String.mk ['t', 'x'] = "tx" := rfl
  have hmk2 : String.mk ['t', 'x', 't', 'y', 'p', 'e'] = "txtype" := rfl
  rw [hmk1, hmk2]
  simp [List.foldlM, applyTokenDataPair, hu, emptyTokenData]

/-- Claim C3: the opaque correlation string serialized by `CreateTokenPool`
for a transaction reference, when echoed back in a pool-create payload's
`data` field, reproduces the original transaction identifier and kind in the
resulting record's transaction reference. -/
theorem c3_correlation_roundtrip (c : DecodeCtx) (data : JSONObject) (txID txType : String)
    (hu : isUUIDString txID = true) (ht : txType ≠ "")
    (hp : ∀ ch ∈ txType.toList, plainChar ch = true)
    (hd : getString data "data" = createPoolCorrelationData txID txType)
    (h1 : getString data "type" ≠ "") (h2 : getString data "poolLocator" ≠ "") :
    ∃ pool, handleTokenPoolCreate c data = some pool ∧
      pool.tx = { id := some txID, txType := txType } := by
  simp only [handleTokenPoolCreate]
  rw [if_neg (by tauto)]
  rw [hd]
  unfold createPoolCorrelationData
  rw [unmarshal_marshal_roundtrip txID txType hu ht hp]
  refine ⟨_, rfl, ?_⟩
  simp [ht]

/-- Witness for C3: a echoed `data` blob for transaction id
`00112233-4455-6677-8899-aabbccddeeff` of kind `token_transfer` round-trips
into the produced pool record's transaction reference. -/
theorem c3_witness :
    ∃ pool, handleTokenPoolCreate sampleDC
        [("type", .str "fungible"), ("poolLocator", .str "pool1"),
         ("data", .str (createPoolCorrelationData
           "00112233-4455-6677-8899-aabbccddeeff" "token_transfer"))] = some pool ∧
      pool.tx = { id := some "00112233-4455-6677-8899-aabbccddeeff"
                  txType := "token_transfer" } :=
  c3_correlation_roundtrip sampleDC
    [("type", .str "fungible"), ("poolLocator", .str "pool1"),
     ("data", .str (createPoolCorrelationData
       "00112233-4455-6677-8899-aabbccddeeff" "token_transfer"))]
    "00112233-4455-6677-8899-aabbccddeeff" "token_transfer"
    (by decide) (by decide) (by decide) rfl (by decide) (by decide)

end FFTokens
